import Mathlib

/-!
Verification of the constraints-based layout layer of the `enaml` widget
toolkit, as implemented in `enaml/widgets/constraints_widget.py` and
`enaml/widgets/container.py`.

The embedding below translates the widget-facing layer directly from the
Python source: the symbolic box-model variables and derived expressions,
the strength-policy enums with their declared defaults, constraint
collection (`_collect_constraints`, `_hard_constraints`,
`_component_constraints`, `_get_default_constraints`,
`Container.layout_constraints`, `Container.widgets`), and the coalescing
relayout scheduler (`relayout`, the deferred layout task and its
completion callback, and the `_layout_invalidated` observers).

Machinery from modules outside the two source files (the casuarius
symbolic algebra, `expand_constraints` and `vbox` from
`enaml.layout.layout_helpers`, the `Box` padding geometry, and the
application scheduler) is modelled from the specification; such
definitions carry a `Modelled from the spec:` doc comment.
-/

namespace Enaml

/-- The atom enum `PolicyEnum = Enum('ignore', 'weak', 'medium', 'strong',
'required')` defining the allowable constraint strengths
(constraints_widget.py line 24). -/
inductive Strength where
  | ignore
  | weak
  | medium
  | strong
  | required
deriving DecidableEq, Repr

/-- The list of values admitted by `PolicyEnum`, in declaration order. -/
def PolicyEnumValues : List Strength :=
  [.ignore, .weak, .medium, .strong, .required]

/-- The four primitive box-model attribute names for which
`ConstraintMember` generates a `ConstraintVariable` named after the
attribute (constraints_widget.py lines 77-89). -/
inductive VarName where
  | left
  | top
  | width
  | height
deriving DecidableEq, Repr

/-- Modelled from the spec: a casuarius `ConstraintVariable` is an
immutable named symbol bound to exactly one owning widget attribute;
identity is by (owner, name).  The owner is the widget's numeric
identity. -/
structure ConstraintVariable where
  owner : Nat
  name : VarName
deriving DecidableEq, Repr

/-- Modelled from the spec: a casuarius `LinearExpression`, an immutable
symbolic affine combination of constraint variables produced by operator
composition (e.g. `left + width`, `height / 2.0`). -/
inductive Expr where
  | var : ConstraintVariable → Expr
  | cnst : ℚ → Expr
  | add : Expr → Expr → Expr
  | div : Expr → ℚ → Expr
deriving DecidableEq, Repr

/-- Evaluate a symbolic linear expression under an assignment of numeric
values to constraint variables. -/
def Expr.eval (σ : ConstraintVariable → ℚ) : Expr → ℚ
  | .var v => σ v
  | .cnst q => q
  | .add a b => a.eval σ + b.eval σ
  | .div a q => a.eval σ / q

/-- The constraint variables occurring in a symbolic expression. -/
def Expr.vars : Expr → List ConstraintVariable
  | .var v => [v]
  | .cnst _ => []
  | .add a b => a.vars ++ b.vars
  | .div a _ => a.vars

/-- The relational operator of a linear constraint. -/
inductive RelOp where
  | ge
  | le
  | eq
deriving DecidableEq, Repr

/-- Modelled from the spec: a casuarius `LinearConstraint`, an
(in)equality between two linear expressions tagged with a strength.
Comparisons such as `self.left >= 0` build a constraint whose strength
defaults to `required`. -/
structure Constraint where
  lhs : Expr
  op : RelOp
  rhs : Expr
  strength : Strength
deriving DecidableEq, Repr

/-- An entry of a widget's `constraints` list: either a raw
`LinearConstraint` or a deferred-constraints helper.  Modelled from the
spec: the only helper appearing in the two source files is `vbox`
(from `enaml.layout.layout_helpers`), a vertical-stack helper over an
ordered list of child widgets, identified here by their numeric
identities. -/
inductive LayoutEntry where
  | cn : Constraint → LayoutEntry
  | vbox : List Nat → LayoutEntry
deriving DecidableEq, Repr

/-- Modelled from the spec: `enaml.layout.geometry.Box`, the padding box
holding the amount of space between a container's boundary box and its
content box, one value per side. -/
structure Box where
  top : Int
  right : Int
  bottom : Int
  left : Int
deriving DecidableEq, Repr

/-- Modelled from the spec: a `ScheduledTask` handle returned by
`Application.instance().schedule(...)`, identified by a numeric id. -/
structure AppState where
  nextTaskId : Nat
  pendingTasks : List Nat
deriving DecidableEq, Repr

/-- Source `app.schedule(task)` — Modelled from the spec: the update-cycle
scheduler appends one deferred task to its FIFO queue and returns its
handle. -/
def AppState.schedule (s : AppState) : Nat × AppState :=
  (s.nextTaskId,
   { nextTaskId := s.nextTaskId + 1,
     pendingTasks := s.pendingTasks ++ [s.nextTaskId] })

/-- The layout-relevant state of a `ConstraintsWidget`
(constraints_widget.py lines 56-145): the user `constraints` list, the
four strength-policy members, the liveness of the platform proxy
(`proxy_is_active`), and the private `_layout_task` handle used to
collapse layout requests. -/
structure ConstraintsWidget where
  id : Nat
  constraints : List LayoutEntry
  hug_width : Strength
  hug_height : Strength
  resist_width : Strength
  resist_height : Strength
  proxy_is_active : Bool
  layout_task : Option Nat
deriving DecidableEq, Repr

namespace ConstraintsWidget

/-- Source `left = ConstraintMember()`: the constraint variable named after the
member and owned by the widget (constraints_widget.py lines 38-42, 77). -/
def left (w : ConstraintsWidget) : ConstraintVariable := ⟨w.id, .left⟩

/-- Source `top = ConstraintMember()` (constraints_widget.py line 81). -/
def top (w : ConstraintsWidget) : ConstraintVariable := ⟨w.id, .top⟩

/-- Source `width = ConstraintMember()` (constraints_widget.py line 85). -/
def width (w : ConstraintsWidget) : ConstraintVariable := ⟨w.id, .width⟩

/-- Source `height = ConstraintMember()` (constraints_widget.py line 89). -/
def height (w : ConstraintsWidget) : ConstraintVariable := ⟨w.id, .height⟩

/-- Source `_default_right`: `self.left + self.width`
(constraints_widget.py lines 95-96), the one-time default of the
`Constant` member `right`. -/
def right (w : ConstraintsWidget) : Expr :=
  .add (.var w.left) (.var w.width)

/-- Source `_default_bottom`: `self.top + self.height`
(constraints_widget.py lines 102-103). -/
def bottom (w : ConstraintsWidget) : Expr :=
  .add (.var w.top) (.var w.height)

/-- Source `_default_v_center`: `self.top + self.height / 2.0`
(constraints_widget.py lines 109-110). -/
def v_center (w : ConstraintsWidget) : Expr :=
  .add (.var w.top) (.div (.var w.height) 2)

/-- Source `_default_h_center`: `self.left + self.width / 2.0`
(constraints_widget.py lines 116-117). -/
def h_center (w : ConstraintsWidget) : Expr :=
  .add (.var w.left) (.div (.var w.width) 2)

/-- Source `_component_constraints`: the default implementation returns an
empty list (constraints_widget.py lines 235-243). -/
def componentConstraints (_w : ConstraintsWidget) : List LayoutEntry := []

/-- Source `_get_default_constraints`: the default implementation returns an
empty list (constraints_widget.py lines 245-253). -/
def getDefaultConstraints (_w : ConstraintsWidget) : List LayoutEntry := []

/-- Source `_hard_constraints`: `left`, `top`, `width` and `height` constrained
to be at least zero (constraints_widget.py lines 218-233).  Modelled
from the spec for the strength tag: casuarius comparison constraints
default to the `required` strength. -/
def hardConstraints (w : ConstraintsWidget) : List Constraint :=
  [ ⟨.var w.left, .ge, .cnst 0, .required⟩,
    ⟨.var w.top, .ge, .cnst 0, .required⟩,
    ⟨.var w.width, .ge, .cnst 0, .required⟩,
    ⟨.var w.height, .ge, .cnst 0, .required⟩ ]

end ConstraintsWidget

/-- Modelled from the spec: the primitive constraints generated when a
`vbox(children...)` helper is expanded against an owning widget: the
children are stacked top-to-bottom within the owner's content box,
padded 10 pixels a side, each child spanning the content width (its
left and right edges pinned to the padded content box edges). -/
def vboxExpand (owner : Nat) (ids : List Nat) : List Constraint :=
  match ids with
  | [] => []
  | a :: rest =>
      let vl := fun (i : Nat) (n : VarName) => Expr.var ⟨i, n⟩
      let childBottom := fun (i : Nat) =>
        Expr.add (vl i .top) (vl i .height)
      let b := (a :: rest).getLast (by simp)
      [ (⟨vl a .top, .eq, .add (vl owner .top) (.cnst 10),
          .strong⟩ : Constraint),
        (⟨Expr.add (childBottom b) (.cnst 10), .eq,
          .add (vl owner .top) (vl owner .height), .strong⟩ : Constraint) ]
      ++ (a :: rest).map (fun i =>
          (⟨vl i .left, .eq, .add (vl owner .left) (.cnst 10),
            .strong⟩ : Constraint))
      ++ (a :: rest).map (fun i =>
          (⟨Expr.add (Expr.add (vl i .left) (vl i .width)) (.cnst 10),
            .eq, .add (vl owner .left) (vl owner .width),
            .strong⟩ : Constraint))
      ++ ((a :: rest).zip rest).map (fun p =>
          (⟨vl p.2 .top, .eq, .add (childBottom p.1) (.cnst 10),
            .strong⟩ : Constraint))

/-- Expansion of a single constraints-list entry against the owning
component: a raw constraint passes through unchanged, a helper
generates its constraints from the current widgets. -/
def expandEntry (owner : Nat) : LayoutEntry → List Constraint
  | .cn c => [c]
  | .vbox ids => vboxExpand owner ids

/-- Modelled from the spec: `expand_constraints` from
`enaml.layout.layout_helpers` — expand each entry of a constraints list
against the owning component until only primitive constraints
remain. -/
def expand_constraints (owner : Nat) (entries : List LayoutEntry) :
    List Constraint :=
  entries.flatMap (expandEntry owner)

/-- Source `_collect_constraints` (constraints_widget.py lines 205-216).  The
returned pair is the expanded constraint list together with the widget
afterwards: in Python `cns = self.constraints` aliases the stored list
when it is non-empty, so the subsequent `cns += self._component_constraints()`
extends the stored list in place; when the stored list is empty, `cns`
is rebound to the default constraints and the stored list is untouched. -/
def ConstraintsWidget.collectConstraints (w : ConstraintsWidget) :
    List Constraint × ConstraintsWidget :=
  let cns := w.constraints
  if cns.isEmpty then
    let cns := w.getDefaultConstraints ++ w.componentConstraints
    (expand_constraints w.id cns, w)
  else
    let cns := cns ++ w.componentConstraints
    (expand_constraints w.id cns, { w with constraints := cns })

/-- Source `relayout` (constraints_widget.py lines 161-177): when the
proxy is active and no layout task is pending, schedule one deferred
task, register the completion callback and store the task handle;
otherwise do nothing, collapsing multiple triggers into a single one. -/
def ConstraintsWidget.relayout (w : ConstraintsWidget) (s : AppState) :
    ConstraintsWidget × AppState :=
  if w.proxy_is_active && w.layout_task.isNone then
    let ts := s.schedule
    ({ w with layout_task := some ts.1 }, ts.2)
  else (w, s)

/-- Iterate `relayout` on the same widget a given number of times, as a
client triggering repeated invalidations within one cycle would. -/
def ConstraintsWidget.relayoutN :
    Nat → ConstraintsWidget × AppState → ConstraintsWidget × AppState
  | 0, p => p
  | n + 1, p => ConstraintsWidget.relayoutN n (p.1.relayout p.2)

/-- The closure `layout_task` scheduled by `relayout`
(constraints_widget.py lines 169-171): at execution time it invokes
`self.proxy.relayout()` only if the proxy is still active.  The result
records whether the proxy relayout was invoked; the widget state is not
touched by the body. -/
def ConstraintsWidget.layoutTaskBody (w : ConstraintsWidget) : Bool :=
  w.proxy_is_active

/-- The completion callback `task_completed` registered via
`task.notify` (constraints_widget.py lines 172-173, 176):
`del self._layout_task` resets the private task handle, with no
condition on the widget's liveness. -/
def ConstraintsWidget.taskCompleted (w : ConstraintsWidget) :
    ConstraintsWidget :=
  { w with layout_task := none }

/-- Execution of the scheduled task by the application: the task body
runs, then the completion callback fires (the scheduler guarantees the
completion callback fires after the task body completes).  Returns the
widget afterwards and whether the proxy relayout was invoked. -/
def ConstraintsWidget.runScheduledTask (w : ConstraintsWidget) :
    ConstraintsWidget × Bool :=
  (w.taskCompleted, w.layoutTaskBody)

/-- The observable members relevant to layout invalidation across the
two classes: the five members of the static observer on
`ConstraintsWidget._layout_invalidated` (constraints_widget.py lines
150-151) and the two additional members observed by
`Container._layout_invalidated` (container.py line 109). -/
inductive Member where
  | constraints
  | hug_width
  | hug_height
  | resist_width
  | resist_height
  | share_layout
  | padding
deriving DecidableEq, Repr

/-- The member names listed in the observer decorator on
`ConstraintsWidget._layout_invalidated` (constraints_widget.py lines
150-151). -/
def cwObservedMembers : List Member :=
  [.constraints, .hug_width, .hug_height, .resist_width, .resist_height]

/-- Source `_layout_invalidated` (constraints_widget.py lines 152-156): the
observer relayouts the proxy widget. -/
def ConstraintsWidget.layoutInvalidated (w : ConstraintsWidget)
    (s : AppState) : ConstraintsWidget × AppState :=
  w.relayout s

/-- Atom's static observer dispatch for `ConstraintsWidget`: a change
notification for a member invokes `_layout_invalidated` exactly when
the member is listed in the observer decorator. -/
def ConstraintsWidget.notifyChange (w : ConstraintsWidget) (m : Member)
    (s : AppState) : ConstraintsWidget × AppState :=
  if m ∈ cwObservedMembers then w.layoutInvalidated s else (w, s)

/-- A child of a container, as seen by `Container.widgets`: either a
`ConstraintsWidget` instance or some other child object. -/
inductive Child where
  | cw : ConstraintsWidget → Child
  | other : Child
deriving DecidableEq, Repr

/-- The layout-relevant state of a `Container` (container.py lines
27-66): the inherited `ConstraintsWidget` state plus the
`share_layout` flag, the `padding` box, and the children list supplied
by the widget-tree collaborator. -/
structure Container where
  widget : ConstraintsWidget
  share_layout : Bool
  padding : Box
  children : List Child
deriving DecidableEq, Repr

namespace Container

/-- Source `Container.widgets` (container.py lines 71-75): the children of
the container that are instances of `ConstraintsWidget`, in child
order. -/
def widgets (c : Container) : List ConstraintsWidget :=
  c.children.filterMap fun ch =>
    match ch with
    | .cw w => some w
    | .other => none

/-- Source `Container.layout_constraints` (container.py lines 120-129):
default vbox constraints over the container's constrainable children
unless the user has given explicit `constraints`. -/
def layout_constraints (c : Container) : List LayoutEntry :=
  if ¬c.widget.constraints.isEmpty then c.widget.constraints
  else [.vbox (c.widgets.map ConstraintsWidget.id)]

/-- The member names effectively observed for a `Container`: the
inherited static observer plus `share_layout` and `padding`
(container.py line 109). -/
def observedMembers : List Member :=
  cwObservedMembers ++ [.share_layout, .padding]

/-- Source `Container._layout_invalidated` (container.py lines 110-115):
delegates to the superclass handler, which relayouts the widget. -/
def layoutInvalidated (c : Container) (s : AppState) :
    Container × AppState :=
  let ws := c.widget.layoutInvalidated s
  ({ c with widget := ws.1 }, ws.2)

/-- Atom's static observer dispatch for `Container`: a change
notification for a member invokes `_layout_invalidated` exactly when
the member is observed for the class. -/
def notifyChange (c : Container) (m : Member) (s : AppState) :
    Container × AppState :=
  if m ∈ Container.observedMembers then c.layoutInvalidated s else (c, s)

end Container

/-- A freshly constructed `ConstraintsWidget` with every member at its
declared default: an empty `constraints` list, the four strength
policies at `strong` (constraints_widget.py lines 123-139), an inactive
proxy and no pending layout task. -/
def defaultConstraintsWidget (i : Nat) : ConstraintsWidget :=
  { id := i, constraints := [],
    hug_width := .strong, hug_height := .strong,
    resist_width := .strong, resist_height := .strong,
    proxy_is_active := false, layout_task := none }

/-- A freshly constructed `Container` with every member at its declared
default: `share_layout` false (container.py line 49), padding 10 pixels
a side (container.py line 56), and `hug_width`/`hug_height` overridden
to `ignore` by `set_default` (container.py lines 62-63); the remaining
inherited members keep the `ConstraintsWidget` defaults. -/
def defaultContainer (i : Nat) : Container :=
  { widget := { defaultConstraintsWidget i with
                  hug_width := .ignore, hug_height := .ignore },
    share_layout := false,
    padding := ⟨10, 10, 10, 10⟩,
    children := [] }

/-- Does a constraint hold under an assignment of numeric values to the
constraint variables? -/
def Constraint.holds (σ : ConstraintVariable → ℚ) (c : Constraint) : Prop :=
  match c.op with
  | .ge => c.rhs.eval σ ≤ c.lhs.eval σ
  | .le => c.lhs.eval σ ≤ c.rhs.eval σ
  | .eq => c.lhs.eval σ = c.rhs.eval σ

/-- A sample widget whose platform proxy is active, used to witness the
scheduler theorems on concrete inputs. -/
def sampleActiveWidget : ConstraintsWidget :=
  { defaultConstraintsWidget 0 with proxy_is_active := true }

/-- A sample widget that already has a pending layout task. -/
def samplePendingWidget : ConstraintsWidget :=
  { sampleActiveWidget with layout_task := some 0 }

/-- A sample application scheduler state with an empty task queue. -/
def sampleApp : AppState := { nextTaskId := 0, pendingTasks := [] }

/-- A relayout trigger on a widget whose layout task handle is set is a
no-op: the guard `not self._layout_task` fails. -/
theorem relayout_pending_noop (w : ConstraintsWidget) (s : AppState)
    (t : Nat) (h : w.layout_task = some t) : w.relayout s = (w, s) := by
  simp [ConstraintsWidget.relayout, h]

/-- Iterated relayout triggers on a widget whose layout task handle is
set leave the widget and the scheduler unchanged. -/
theorem relayoutN_pending_noop (n : Nat) (w : ConstraintsWidget)
    (s : AppState) (t : Nat) (h : w.layout_task = some t) :
    ConstraintsWidget.relayoutN n (w, s) = (w, s) := by
  induction n with
  | zero => rfl
  | succ m ih =>
      show ConstraintsWidget.relayoutN m (w.relayout s) = (w, s)
      rw [relayout_pending_noop w s t h]
      exact ih

/-- C1: for a widget with an active proxy and no pending layout task,
triggering `relayout` any number `n ≥ 1` of times before the scheduled
deferred task executes is the same as triggering it once: the first
call stores the freshly scheduled task handle and appends exactly one
task to the application queue, and every further call is a no-op, so at
most one pending layout task exists for the widget. -/
theorem relayout_coalesces (w : ConstraintsWidget) (s : AppState)
    (hact : w.proxy_is_active = true) (hnone : w.layout_task = none)
    (n : Nat) (hn : 1 ≤ n) :
    ConstraintsWidget.relayoutN n (w, s) = w.relayout s ∧
    (w.relayout s).1 = { w with layout_task := some s.nextTaskId } ∧
    (w.relayout s).2.pendingTasks = s.pendingTasks ++ [s.nextTaskId] := by
  have hstep : w.relayout s =
      ({ w with layout_task := some s.nextTaskId },
       { nextTaskId := s.nextTaskId + 1,
         pendingTasks := s.pendingTasks ++ [s.nextTaskId] }) := by
    simp [ConstraintsWidget.relayout, hact, hnone, AppState.schedule]
  refine ⟨?_, by rw [hstep], by rw [hstep]⟩
  obtain ⟨m, rfl⟩ := Nat.exists_eq_add_of_le hn
  rw [Nat.add_comm 1 m]
  show ConstraintsWidget.relayoutN m (w.relayout s) = w.relayout s
  rw [hstep]
  exact relayoutN_pending_noop m _ _ s.nextTaskId rfl

/-- Witness for C1 at a concrete widget, scheduler state and `n = 3`. -/
theorem relayout_coalesces_witness :
    ConstraintsWidget.relayoutN 3 (sampleActiveWidget, sampleApp) =
      sampleActiveWidget.relayout sampleApp ∧
    (sampleActiveWidget.relayout sampleApp).1 =
      { sampleActiveWidget with layout_task := some sampleApp.nextTaskId } ∧
    (sampleActiveWidget.relayout sampleApp).2.pendingTasks =
      sampleApp.pendingTasks ++ [sampleApp.nextTaskId] :=
  relayout_coalesces sampleActiveWidget sampleApp rfl rfl 3 (by decide)

/-- C8: when the deferred task runs, the completion callback clears the
task handle unconditionally — the widget leaves the pending state even
if its proxy became inactive before execution — while the task body
invokes the proxy relayout exactly when the proxy is still active, and
nothing else in the widget state changes. -/
theorem task_completion_clears_pending (w : ConstraintsWidget) :
    (w.runScheduledTask).1.layout_task = none ∧
    (w.runScheduledTask).2 = w.proxy_is_active ∧
    (w.runScheduledTask).1 = { w with layout_task := none } :=
  ⟨rfl, rfl, rfl⟩

/-- C10: a relayout trigger on a widget whose platform proxy is not
active changes nothing: no task is scheduled, the task handle and the
rest of the widget state are untouched, and the scheduler state is
untouched. -/
theorem relayout_inactive_noop (w : ConstraintsWidget) (s : AppState)
    (h : w.proxy_is_active = false) : w.relayout s = (w, s) := by
  simp [ConstraintsWidget.relayout, h]

/-- Witness for C10 at a concrete inactive widget. -/
theorem relayout_inactive_noop_witness :
    (defaultConstraintsWidget 0).relayout sampleApp =
      (defaultConstraintsWidget 0, sampleApp) :=
  relayout_inactive_noop (defaultConstraintsWidget 0) sampleApp rfl

/-- C9: collecting the constraints of a widget leaves the widget's
stored `constraints` list with exactly the entries it held before, and
in fact leaves the whole widget state unchanged: the in-place
`cns += self._component_constraints()` extends the list by the base
implementation's empty component-constraints list. -/
theorem collect_constraints_pure (w : ConstraintsWidget) :
    (w.collectConstraints).2.constraints = w.constraints ∧
    (w.collectConstraints).2 = w := by
  have h : (w.collectConstraints).2 = w := by
    by_cases hc : w.constraints.isEmpty <;>
      simp [ConstraintsWidget.collectConstraints, hc,
        ConstraintsWidget.componentConstraints]
  exact ⟨by rw [h], h⟩

/-- C2 counterexample: a freshly constructed `Container` is a widget
whose `hug_width` defaults to `ignore`, not `strong` — the
`set_default` overrides on container.py lines 62-63 refute the claim
that the four strength settings default to `strong` for every
widget. -/
theorem strength_defaults_cex :
    ¬((defaultContainer 0).widget.hug_width = Strength.strong ∧
      (defaultContainer 0).widget.hug_height = Strength.strong) := by
  decide

/-- C2 (amended): each of the four strength settings ranges over
exactly the five values ignore, weak, medium, strong and required; on a
freshly constructed `ConstraintsWidget` all four default to `strong`,
while a freshly constructed `Container` overrides the defaults of
`hug_width` and `hug_height` to `ignore` and keeps `strong` for
`resist_width` and `resist_height`. -/
theorem strength_policy_defaults :
    (∀ i, (defaultConstraintsWidget i).hug_width = Strength.strong ∧
          (defaultConstraintsWidget i).hug_height = Strength.strong ∧
          (defaultConstraintsWidget i).resist_width = Strength.strong ∧
          (defaultConstraintsWidget i).resist_height = Strength.strong) ∧
    (∀ i, (defaultContainer i).widget.hug_width = Strength.ignore ∧
          (defaultContainer i).widget.hug_height = Strength.ignore ∧
          (defaultContainer i).widget.resist_width = Strength.strong ∧
          (defaultContainer i).widget.resist_height = Strength.strong) ∧
    (∀ v : Strength, v ∈ PolicyEnumValues) ∧
    PolicyEnumValues.Nodup ∧ PolicyEnumValues.length = 5 := by
  refine ⟨fun i => ⟨rfl, rfl, rfl, rfl⟩, fun i => ⟨rfl, rfl, rfl, rfl⟩,
    fun v => ?_, by decide, rfl⟩
  cases v <;> decide

/-- C3: the collected constraint list of a widget is the expansion of
the widget's own `constraints` list when that list is non-empty and of
the widget's default constraints otherwise, followed in both cases by
the widget's component constraints — and the component constraints of
the base widget kind are empty. -/
theorem collect_constraints_spec (w : ConstraintsWidget) :
    (w.collectConstraints).1 =
      expand_constraints w.id
        ((if w.constraints.isEmpty then w.getDefaultConstraints
          else w.constraints) ++ w.componentConstraints) ∧
    w.componentConstraints = [] := by
  refine ⟨?_, rfl⟩
  by_cases hc : w.constraints.isEmpty <;>
    simp [ConstraintsWidget.collectConstraints, hc]

/-- Every constraint that a `vbox` helper generates is an equality of
non-required strength, so helper expansion can never manufacture one of
the `required` inequality hard constraints. -/
theorem vboxExpand_op_eq (o : Nat) (ids : List Nat) :
    ∀ c ∈ vboxExpand o ids, c.op = RelOp.eq := by
  cases ids with
  | nil => intro c hc; simp [vboxExpand] at hc
  | cons a rest =>
      intro c hc
      unfold vboxExpand at hc
      simp only [List.mem_append, List.mem_cons, List.mem_map,
        List.not_mem_nil, or_false] at hc
      rcases hc with (((rfl | rfl) | ⟨i, _, rfl⟩) | ⟨i, _, rfl⟩) |
        ⟨p, _, rfl⟩ <;> rfl

/-- Every hard constraint is a lower-bound inequality. -/
theorem hardConstraints_op_ge (w : ConstraintsWidget) :
    ∀ c ∈ w.hardConstraints, c.op = RelOp.ge := by
  intro c hc
  simp only [ConstraintsWidget.hardConstraints, List.mem_cons,
    List.not_mem_nil, or_false] at hc
  rcases hc with rfl | rfl | rfl | rfl <;> rfl

/-- C4: for every widget the hard-constraint set consists of exactly
four constraints, all of `required` strength, jointly equivalent under
any assignment to `left ≥ 0`, `top ≥ 0`, `width ≥ 0` and `height ≥ 0`;
and constraint collection never adds them to the user-facing list: a
hard constraint is an element of the collected list only if the user's
own `constraints` list already contains that very constraint verbatim
(helper expansion only produces equalities), and in particular a widget
whose user `constraints` list is empty collects an empty list, which
contains no hard constraint. -/
theorem hard_constraints_spec (w : ConstraintsWidget) :
    w.hardConstraints.length = 4 ∧
    (∀ c ∈ w.hardConstraints, c.strength = Strength.required) ∧
    (∀ σ : ConstraintVariable → ℚ,
      (∀ c ∈ w.hardConstraints, c.holds σ) ↔
        (0 ≤ σ w.left ∧ 0 ≤ σ w.top ∧ 0 ≤ σ w.width ∧
          0 ≤ σ w.height)) ∧
    (∀ c ∈ w.hardConstraints, c ∈ (w.collectConstraints).1 →
      LayoutEntry.cn c ∈ w.constraints) ∧
    (w.constraints = [] → (w.collectConstraints).1 = [] ∧
      ∀ c ∈ w.hardConstraints, c ∉ (w.collectConstraints).1) := by
  refine ⟨rfl, ?_, ?_, ?_, ?_⟩
  · intro c hc
    simp only [ConstraintsWidget.hardConstraints, List.mem_cons,
      List.not_mem_nil, or_false] at hc
    rcases hc with rfl | rfl | rfl | rfl <;> rfl
  · intro σ
    simp [ConstraintsWidget.hardConstraints, Constraint.holds, Expr.eval]
  · intro c hc hmem
    by_cases hempty : w.constraints.isEmpty
    · simp [ConstraintsWidget.collectConstraints, hempty,
        ConstraintsWidget.getDefaultConstraints,
        ConstraintsWidget.componentConstraints, expand_constraints] at hmem
    · simp only [ConstraintsWidget.collectConstraints, hempty,
        ConstraintsWidget.componentConstraints, List.append_nil,
        if_false, Bool.false_eq_true, expand_constraints,
        List.mem_flatMap] at hmem
      obtain ⟨e, he, hce⟩ := hmem
      cases e with
      | cn c' =>
          simp only [expandEntry, List.mem_singleton] at hce
          subst hce
          exact he
      | vbox ids =>
          have heq := vboxExpand_op_eq w.id ids c hce
          have hge := hardConstraints_op_ge w c hc
          rw [hge] at heq
          exact absurd heq (by decide)
  · intro h
    have hcol : (w.collectConstraints).1 = [] := by
      simp [ConstraintsWidget.collectConstraints, h,
        ConstraintsWidget.getDefaultConstraints,
        ConstraintsWidget.componentConstraints, expand_constraints]
    refine ⟨hcol, ?_⟩
    intro c _ hmem
    rw [hcol] at hmem
    exact List.not_mem_nil c hmem

/-- Witness for C4 at concrete widgets: one with an empty constraints
list (its collected list is empty and contains no hard constraint),
and one whose user list holds a vbox helper, for which collection still
contributes no hard constraint. -/
theorem hard_constraints_spec_witness :
    (defaultConstraintsWidget 0).hardConstraints.length = 4 ∧
    ((defaultConstraintsWidget 0).collectConstraints).1 = [] ∧
    (⟨.var ⟨0, VarName.left⟩, .ge, .cnst 0, .required⟩ : Constraint) ∉
      ((defaultConstraintsWidget 0).collectConstraints).1 ∧
    ((⟨.var ⟨5, VarName.left⟩, .ge, .cnst 0, .required⟩ : Constraint) ∈
        (({ defaultConstraintsWidget 5 with
            constraints := [.vbox [6]] } :
          ConstraintsWidget).collectConstraints).1 →
      LayoutEntry.cn ⟨.var ⟨5, VarName.left⟩, .ge, .cnst 0, .required⟩ ∈
        ({ defaultConstraintsWidget 5 with
            constraints := [.vbox [6]] } :
          ConstraintsWidget).constraints) :=
  ⟨(hard_constraints_spec (defaultConstraintsWidget 0)).1,
   ((hard_constraints_spec (defaultConstraintsWidget 0)).2.2.2.2 rfl).1,
   ((hard_constraints_spec (defaultConstraintsWidget 0)).2.2.2.2 rfl).2
     _ (List.mem_cons_self _ _),
   (hard_constraints_spec { defaultConstraintsWidget 5 with
       constraints := [.vbox [6]] }).2.2.2.1
     _ (List.mem_cons_self _ _)⟩

/-- C5: the derived symbolic expressions of every widget satisfy
`right = left + width`, `bottom = top + height`,
`h_center = left + width / 2` and `v_center = top + height / 2` under
every assignment, and each is built from the widget's own primitive
variables only — every variable occurring in them is owned by the
widget itself. -/
theorem derived_expressions_spec (w : ConstraintsWidget)
    (σ : ConstraintVariable → ℚ) :
    w.right.eval σ = σ w.left + σ w.width ∧
    w.bottom.eval σ = σ w.top + σ w.height ∧
    w.h_center.eval σ = σ w.left + σ w.width / 2 ∧
    w.v_center.eval σ = σ w.top + σ w.height / 2 ∧
    w.right.vars = [w.left, w.width] ∧
    w.bottom.vars = [w.top, w.height] ∧
    w.h_center.vars = [w.left, w.width] ∧
    w.v_center.vars = [w.top, w.height] ∧
    (∀ v ∈ w.right.vars ++ w.bottom.vars ++ w.h_center.vars ++
        w.v_center.vars, v.owner = w.id) := by
  refine ⟨rfl, rfl, rfl, rfl, rfl, rfl, rfl, rfl, ?_⟩
  intro v hv
  have hv' : v ∈ [w.left, w.width, w.top, w.height, w.left, w.width,
      w.top, w.height] := hv
  fin_cases hv' <;> rfl

/-- Witness for C5 at a concrete widget, the all-ones assignment and a
concrete variable of the widget. -/
theorem derived_expressions_spec_witness :
    (defaultConstraintsWidget 2).right.eval (fun _ => (1 : ℚ)) = 1 + 1 ∧
    (⟨2, VarName.left⟩ : ConstraintVariable).owner =
      (defaultConstraintsWidget 2).id :=
  ⟨by
    have h := (derived_expressions_spec (defaultConstraintsWidget 2)
      (fun _ => (1 : ℚ))).1
    simpa using h,
   (derived_expressions_spec (defaultConstraintsWidget 2)
      (fun _ => (1 : ℚ))).2.2.2.2.2.2.2.2 ⟨2, VarName.left⟩ (by decide)⟩

/-- A sample container with three children, two of which are
constraints widgets, used to witness the container theorems. -/
def sampleContainer : Container :=
  { defaultContainer 2 with
      children := [.cw (defaultConstraintsWidget 3), .other,
        .cw (defaultConstraintsWidget 4)] }

/-- Filtering a children list down to its `ConstraintsWidget` members
preserves child order: reinjecting the filtered widgets yields a
subsequence of the original children list. -/
theorem widgetsAsChildrenSublist (l : List Child) :
    ((l.filterMap fun ch =>
        match ch with
        | .cw w => some w
        | .other => none).map Child.cw).Sublist l := by
  induction l with
  | nil => simp
  | cons ch t ih =>
      cases ch with
      | cw w => exact List.Sublist.cons₂ _ ih
      | other => exact List.Sublist.cons _ ih

/-- C6: a container whose `constraints` list is empty supplies exactly
one vertical-stack (`vbox`) helper over its constrainable children, in
child order (the children retained are a subsequence of the children
list, hence in order); a container whose `constraints` list is
non-empty supplies that list verbatim. -/
theorem container_layout_constraints_spec (c : Container) :
    c.layout_constraints =
      (if c.widget.constraints.isEmpty then
        [LayoutEntry.vbox (c.widgets.map ConstraintsWidget.id)]
      else c.widget.constraints) ∧
    (c.widgets.map Child.cw).Sublist c.children ∧
    (∀ w ∈ c.widgets, Child.cw w ∈ c.children) := by
  refine ⟨?_, widgetsAsChildrenSublist c.children, ?_⟩
  · by_cases hc : c.widget.constraints.isEmpty <;>
      simp [Container.layout_constraints, hc]
  · intro w hw
    exact (widgetsAsChildrenSublist c.children).subset
      (List.mem_map_of_mem Child.cw hw)

/-- Witness for C6 at a concrete container with an empty constraints
list and three children, two of which are constraints widgets. -/
theorem container_layout_constraints_spec_witness :
    sampleContainer.layout_constraints = [LayoutEntry.vbox [3, 4]] ∧
    Child.cw (defaultConstraintsWidget 3) ∈ sampleContainer.children :=
  ⟨by
    have h := (container_layout_constraints_spec sampleContainer).1
    rw [h]; rfl,
   (container_layout_constraints_spec sampleContainer).2.2
     (defaultConstraintsWidget 3) (by decide)⟩

/-- C7: a change notification on any of the five observed
`ConstraintsWidget` members issues a `relayout` request, as does a
change notification on any of the seven members observed for a
`Container` (which include `share_layout` and `padding`); the observed
member sets are exactly as declared; and a widget that is already
pending stays pending with the same task, with the widget and the
scheduler left unchanged. -/
theorem layout_invalidation_triggers (w : ConstraintsWidget)
    (c : Container) (s : AppState) (m : Member) (t : Nat) :
    (m ∈ cwObservedMembers → w.notifyChange m s = w.relayout s) ∧
    (m ∈ Container.observedMembers →
      c.notifyChange m s =
        ({ c with widget := (c.widget.relayout s).1 },
         (c.widget.relayout s).2)) ∧
    (∀ mm : Member, mm ∈ Container.observedMembers) ∧
    (∀ mm : Member, mm ∈ cwObservedMembers ↔
      (mm ≠ Member.share_layout ∧ mm ≠ Member.padding)) ∧
    (w.layout_task = some t → w.notifyChange m s = (w, s)) ∧
    (c.widget.layout_task = some t → c.notifyChange m s = (c, s)) := by
  refine ⟨?_, ?_, ?_, ?_, ?_, ?_⟩
  · intro h
    simp [ConstraintsWidget.notifyChange, h,
      ConstraintsWidget.layoutInvalidated]
  · intro h
    simp [Container.notifyChange, h, Container.layoutInvalidated,
      ConstraintsWidget.layoutInvalidated]
  · intro mm; cases mm <;> decide
  · intro mm; cases mm <;> decide
  · intro h
    by_cases hm : m ∈ cwObservedMembers <;>
      simp [ConstraintsWidget.notifyChange, hm,
        ConstraintsWidget.layoutInvalidated,
        relayout_pending_noop w s t h]
  · intro h
    by_cases hm : m ∈ Container.observedMembers <;>
      simp [Container.notifyChange, hm, Container.layoutInvalidated,
        ConstraintsWidget.layoutInvalidated,
        relayout_pending_noop c.widget s t h]

/-- Witness for C7 at concrete widgets, member names and scheduler
state: an already-pending widget stays unchanged, and an idle active
widget gets a relayout request on a constraints change. -/
theorem layout_invalidation_triggers_witness :
    samplePendingWidget.notifyChange Member.hug_width sampleApp =
      (samplePendingWidget, sampleApp) ∧
    sampleActiveWidget.notifyChange Member.constraints sampleApp =
      sampleActiveWidget.relayout sampleApp :=
  ⟨(layout_invalidation_triggers samplePendingWidget (defaultContainer 1)
      sampleApp Member.hug_width 0).2.2.2.2.1 rfl,
   (layout_invalidation_triggers sampleActiveWidget (defaultContainer 1)
      sampleApp Member.constraints 0).1 (by decide)⟩

end Enaml
